import Mathlib

/-!
Verification of the AppFlowy-LAI sidecar plugin runtime core, embedded from
`af-plugin/src/core/rpc_peer.rs`, `af-plugin/src/core/rpc_loop.rs`,
`appflowy-plugin/src/core/parser.rs` and `appflowy-plugin/src/manager.rs`.

The embedding is sequential: a stateful Rust method becomes a Lean function
from an explicit state to a new state plus a list of observable events
(handler invocations, running-state broadcasts, writes, log lines).  Mutexes
are modelled by their uncontended sequential semantics; side-effecting
callbacks are recorded as events rather than run; outcomes of foreign calls
(stdin writes, child process spawn, serde parsing of a raw line) are supplied
as parameters.  Types whose defining files are not part of the sources at
hand (plugin.rs, rpc_object.rs, error.rs, util.rs) are modelled from the
specification and marked as such in their doc comments.
-/

namespace AFPlugin

/-- Source: serde_json `Value` — JSON values as used by the runtime. -/
inductive Json where
  | null
  | bool (b : Bool)
  | num (n : Int)
  | str (s : String)
  | arr (elems : List Json)
  | obj (fields : List (String × Json))

/-- Association-list lookup, used to model map structures (`BTreeMap`,
`HashMap`, JSON object fields). -/
def alistLookup {α β : Type} [DecidableEq α] (l : List (α × β)) (k : α) : Option β :=
  match l with
  | [] => none
  | (k', v) :: rest => if k' = k then some v else alistLookup rest k

/-- Removes the binding of `k` (map removal; keys are unique in every map the
runtime builds, so removing all occurrences coincides with removing one). -/
def alistErase {α β : Type} [DecidableEq α] (l : List (α × β)) (k : α) : List (α × β) :=
  l.filter (fun p => decide (p.1 ≠ k))

/-- Map insert: binds `k` to `v`, replacing any previous binding. -/
def alistInsert {α β : Type} [DecidableEq α] (l : List (α × β)) (k : α) (v : β) :
    List (α × β) :=
  (k, v) :: alistErase l k

/-- Field access on a JSON object (`Value::get`). -/
def Json.get (v : Json) (key : String) : Option Json :=
  match v with
  | Json.obj fields => alistLookup fields key
  | _ => none

/-- Source: `Value::is_object`. -/
def Json.isObject : Json → Bool
  | Json.obj _ => true
  | _ => false

/-- Modelled from the spec: the error taxonomy of section 7 (`error.rs` is not
among the sources at hand).  `io` carries the underlying message; `internal`
the host-side message; `remoteError` the structured JSON error from the child. -/
inductive PluginError where
  | io (msg : String)
  | internal (msg : String)
  | pluginNotConnected
  | peerDisconnect
  | invalidResponse
  | parseResponse (value : Json)
  | remoteError (value : Json)
  | timeout

/-- Modelled from the spec: read errors of the child stream (`error.rs` is not
among the sources at hand).  `disconnect` carries a message (parser.rs builds
one at an empty read); `io` and `unknownRequest` appear in rpc_loop.rs. -/
inductive ReadError where
  | disconnect (msg : String)
  | io (msg : String)
  | unknownRequest (msg : String)

/-- Modelled from the spec: a structured error the child returned in the
`error` field (section 7, RemoteError); carried as JSON. -/
structure RemoteError where
  payload : Json

/-- Conversion used at rpc_loop.rs:183 (`map_err(PluginError::from)`). -/
def RemoteError.toPluginError (e : RemoteError) : PluginError :=
  PluginError.remoteError e.payload

/-- Modelled from the spec: `RunningState` of section 3 (plugin.rs is not
among the sources at hand); the variants used by rpc_peer.rs carry the plugin id. -/
inductive RunningState where
  | readyToConnect
  | initState
  | running (pluginId : Int)
  | stopped (pluginId : Int)
  | unexpectedStop (pluginId : Int)

/-- Source: the `matches!(.., RunningState::Running)` test of rpc_peer.rs:387. -/
def RunningState.isRunning : RunningState → Bool
  | .running _ => true
  | _ => false

/-- Source: `ResponsePayload` (rpc_peer.rs:403-408). -/
inductive ResponsePayload where
  | json (v : Json)
  | streaming (v : Json)
  | streamEnd (v : Json)

/-- Source: rpc_peer.rs:415-420. -/
def ResponsePayload.is_stream : ResponsePayload → Bool
  | .streaming _ => true
  | .streamEnd _ => true
  | _ => false

/-- Source: rpc_peer.rs:422-424. -/
def ResponsePayload.is_stream_end : ResponsePayload → Bool
  | .streamEnd _ => true
  | _ => false

/-- Source: rpc_peer.rs:426-432 — the StreamEnd payload is dropped. -/
def ResponsePayload.into_json : ResponsePayload → Option Json
  | .json v => some v
  | .streaming v => some v
  | .streamEnd _ => none

/-- Source: `ResponseHandler` (rpc_peer.rs:451-455).  The underlying channel or
callback is identified by an opaque tag; invoking a handler is recorded as an
event rather than run. -/
inductive ResponseHandler where
  | chan (tag : Nat)
  | callback (tag : Nat)
  | streamCallback (tag : Nat)

/-- Source: rpc_peer.rs:458-463. -/
def ResponseHandler.get_stream_callback : ResponseHandler → Option Nat
  | .streamCallback cb => some cb
  | _ => none

/-- Observable effects of the runtime: a running-state broadcast on the watch
channel, the invocation of a response handler with a result, a message written
to child stdin, a log line, the graceful shutdown driven into a removed
plugin, and — were it ever to happen — a delivery of a timer token to the
handler idle hook. -/
inductive Event where
  | broadcast (state : RunningState)
  | invoked (handler : ResponseHandler) (result : Except PluginError Json)
  | sent (msg : Json)
  | log (msg : Json)
  | pluginShutdown (pluginId : Int)
  | idleCall (token : Nat)

/-- True exactly on idle-hook deliveries. -/
def Event.isIdleCall : Event → Bool
  | .idleCall _ => true
  | _ => false

/-- Source: `Timer` (rpc_peer.rs:515-519); instants are abstract naturals. -/
structure Timer where
  fire_after : Nat
  token : Nat

/-- Source: `RpcObject` — a parsed inbound envelope (its defining file
rpc_object.rs is not among the sources at hand, but it is a plain newtype over
the JSON value, per the spec, section 3). -/
structure RpcObject where
  value : Json

/-- Source: `RpcState` (rpc_peer.rs:52-62), the shared mutable state of a
`RawPeer`.  The writer is modelled through `Event.sent`; the watch channel by
its latest value `running_state`. -/
structure PeerState where
  rxQueue : List (Except ReadError RpcObject)
  pending : List (Nat × ResponseHandler)
  request_id_counter : Nat
  timers : List Timer
  needs_exit : Bool
  is_blocking : Bool
  running_state : RunningState

/-- Modelled from the spec: response classification, section 4.1 — an object
with `result` or `error` and a numeric `id` is a response (rpc_object.rs is
not among the sources at hand). -/
def RpcObject.is_response (o : RpcObject) : Bool :=
  (match o.value.get "id" with
   | some (Json.num _) => true
   | _ => false)
  && ((o.value.get "result").isSome || (o.value.get "error").isSome)

/-- Modelled from the spec: `RpcObject::get_id` — the numeric `id` field read
as a u64 (rpc_object.rs is not among the sources at hand). -/
def RpcObject.get_id (o : RpcObject) : Option Nat :=
  match o.value.get "id" with
  | some (Json.num n) => if n < 0 then none else some n.toNat
  | _ => none

/-- Modelled from the spec: the shutdown sentinel is "an object whose shape
indicates shutdown" (section 4.1); its exact shape is not given and no claim
depends on it, so it is modelled as an object carrying a "shutdown" field
(rpc_object.rs is not among the sources at hand). -/
def RpcObject.is_shutdown (o : RpcObject) : Bool :=
  (o.value.get "shutdown").isSome

/-- Modelled from the spec: `RpcObject::into_response` (rpc_object.rs is not
among the sources at hand).  Per sections 4.1 and 7, an `error` field carries a
structured remote error and a `result` field the payload; an envelope with
neither fails to parse.  How a success is classified among Json, Streaming and
StreamEnd is an open question of the spec (section 9, stream-end protocol) and
no claim below depends on it, so successes are modelled as plain Json payloads. -/
def RpcObject.into_response (o : RpcObject) :
    Except String (Except RemoteError ResponsePayload) :=
  match o.value.get "error" with
  | some e => Except.ok (Except.error { payload := e })
  | none =>
    match o.value.get "result" with
    | some r => Except.ok (Except.ok (ResponsePayload.json r))
    | none => Except.error "invalid response"

/-- Source: the `Deserialize` instance of `PluginCommand<String>`
(rpc_peer.rs:34-50): the plugin id is read from the top-level "plugin_id"
field of the value and the command is the whole value deserialized as a
string. -/
def decodePluginCommandString (v : Json) : Except String (Int × String) :=
  match v.get "plugin_id" with
  | some (Json.num pid) =>
    match v with
    | Json.str s => Except.ok (pid, s)
    | _ => Except.error "invalid type: expected a string"
  | _ => Except.error "missing field plugin_id"

/-- Source: `Call` (parser.rs:61-68), specialised to the handler request type
`PluginCommand<String>` used by the manager (manager.rs:225). -/
inductive Call where
  | message (v : Json)
  | request (id : Nat) (pluginId : Int) (cmd : String)
  | invalidRequest (id : Nat) (err : Json)

/-- Modelled from the spec: `RpcObject::into_rpc` (rpc_object.rs is not among
the sources at hand).  Per section 4.1 and the `Call` type of parser.rs: an
object with an id whose body decodes is a request; one with an id whose body
does not decode is a malformed request (the client receives an error); an
object without an id — a notification or a `message` log line — is surfaced
as `Call.message`. -/
def RpcObject.into_rpc (o : RpcObject) : Except String Call :=
  match o.get_id with
  | some id =>
    match decodePluginCommandString o.value with
    | Except.ok (pid, cmd) => Except.ok (Call.request id pid cmd)
    | Except.error e => Except.ok (Call.invalidRequest id (Json.str e))
  | none => Except.ok (Call.message o.value)

/-- Source: `MessageReader::parse` (parser.rs:43-55).  The outcome of
serde_json parsing of the raw line is supplied as `parsed` (`none` when the
line is not valid JSON).  Note the source never returns an error here: a
non-JSON or non-object line becomes an object carrying the raw text under the
"message" key. -/
def MessageReader.parse (s : String) (parsed : Option Json) :
    Except ReadError RpcObject :=
  match parsed with
  | some val =>
    if val.isObject then Except.ok { value := val }
    else Except.ok { value := Json.obj [("message", Json.str s)] }
  | none => Except.ok { value := Json.obj [("message", Json.str s)] }

/-- Source: `MessageReader::next` (parser.rs:20-37).  `readLine` is the
outcome of `read_line` (`Except.error` = underlying io error, `Except.ok buf`
= the bytes read, empty exactly at EOF); `parsed` is the serde parse outcome
of the buffer.  An io error is swallowed (`Ok(None)`); an empty read is a
disconnect. -/
def MessageReader.next (readLine : Except String String) (parsed : Option Json) :
    Except ReadError (Option RpcObject) :=
  match readLine with
  | Except.ok buf =>
    if buf.isEmpty then
      Except.error (ReadError.disconnect "stdout return empty line")
    else (MessageReader.parse buf parsed).map some
  | Except.error _err => Except.ok none

/-- Source: the request envelope built by `RawPeer::send_rpc`
(rpc_peer.rs:204-208). -/
def mkRequestMsg (id : Nat) (method : String) (params : Json) : Json :=
  Json.obj [("id", Json.num id), ("method", Json.str method), ("params", params)]

/-- Source: `RawPeer::send_rpc` (rpc_peer.rs:200-217).  Allocates the next
request id from the counter, sends the envelope (the outcome of the stdin
write is supplied as `writeOk`); on a failed write the handler is invoked at
once with an io error, otherwise it is stored in the pending table under the
fresh id. -/
def send_rpc (s : PeerState) (method : String) (params : Json)
    (response_handler : ResponseHandler) (writeOk : Bool) : PeerState × List Event :=
  let id := s.request_id_counter
  let s := { s with request_id_counter := s.request_id_counter + 1 }
  let msg := mkRequestMsg id method params
  if writeOk then
    ({ s with pending := alistInsert s.pending id response_handler },
     [Event.sent msg])
  else
    (s, [Event.invoked response_handler (Except.error (PluginError.io "write failed"))])

/-- Source: `Peer::stream_rpc_request` (rpc_peer.rs:111-113). -/
def stream_rpc_request (s : PeerState) (method : String) (params : Json)
    (cbTag : Nat) (writeOk : Bool) : PeerState × List Event :=
  send_rpc s method params (ResponseHandler.streamCallback cbTag) writeOk

/-- Source: `Peer::async_send_rpc_request` (rpc_peer.rs:115-117). -/
def async_send_rpc_request (s : PeerState) (method : String) (params : Json)
    (cbTag : Nat) (writeOk : Bool) : PeerState × List Event :=
  send_rpc s method params (ResponseHandler.callback cbTag) writeOk

/-- Source: the send phase of `Peer::send_rpc_request` (rpc_peer.rs:119-126):
sets the is-blocking flag and routes a channel handler through `send_rpc`; the
subsequent blocking receive happens on the caller thread. -/
def send_rpc_request_send (s : PeerState) (method : String) (params : Json)
    (chanTag : Nat) (writeOk : Bool) : PeerState × List Event :=
  send_rpc { s with is_blocking := true } method params
    (ResponseHandler.chan chanTag) writeOk

/-- Source: `RawPeer::handle_response` (rpc_peer.rs:251-297).  Removes the
handler stored under the id; for a streaming frame that is not the terminal
frame, re-inserts the stream callback; converts the payload with `into_json`
and invokes the handler unless the conversion yields nothing. -/
def handle_response (s : PeerState) (request_id : Nat)
    (resp : Except PluginError ResponsePayload) : PeerState × List Event :=
  let handler := alistLookup s.pending request_id
  let s := { s with pending := alistErase s.pending request_id }
  let is_stream :=
    match resp with
    | Except.ok r => r.is_stream
    | Except.error _ => false
  match handler with
  | some response_handler =>
    let s :=
      if is_stream then
        let is_stream_end :=
          match resp with
          | Except.ok r => r.is_stream_end
          | Except.error _ => false
        if is_stream_end then s
        else
          match response_handler.get_stream_callback with
          | some cb =>
            { s with pending :=
                alistInsert s.pending request_id (ResponseHandler.streamCallback cb) }
          | none => s
      else s
    match resp.map ResponsePayload.into_json with
    | Except.ok (some j) => (s, [Event.invoked response_handler (Except.ok j)])
    | Except.ok none => (s, [])
    | Except.error err => (s, [Event.invoked response_handler (Except.error err)])
  | none => (s, [])

/-- Source: `RawPeer::try_get_rx` (rpc_peer.rs:300-303). -/
def try_get_rx (s : PeerState) : PeerState × Option (Except ReadError RpcObject) :=
  match s.rxQueue with
  | [] => (s, none)
  | x :: rest => ({ s with rxQueue := rest }, some x)

/-- Source: `RawPeer::put_rpc_object` (rpc_peer.rs:318-322). -/
def put_rpc_object (s : PeerState) (json : Except ReadError RpcObject) : PeerState :=
  { s with rxQueue := s.rxQueue ++ [json] }

/-- Source: `RawPeer::get_rx_timeout` (rpc_peer.rs:307-314).  What the read
thread enqueues during the condvar wait is supplied as `arrivals`; an empty
batch means the wait timed out and nothing is popped. -/
def get_rx_timeout (s : PeerState) (arrivals : List (Except ReadError RpcObject)) :
    PeerState × Option (Except ReadError RpcObject) :=
  let s := { s with rxQueue := s.rxQueue ++ arrivals }
  if arrivals.isEmpty then (s, none) else try_get_rx s

/-- Source: `Peer::schedule_timer` (rpc_peer.rs:133-138); the binary heap is
modelled as an unordered list. -/
def schedule_timer (s : PeerState) (after : Nat) (token : Nat) : PeerState :=
  { s with timers := { fire_after := after, token := token } :: s.timers }

/-- Heap peek: the timer with the least fire-after (the heap top under the
reversed `Ord` of rpc_peer.rs:521-525); the earlier list element wins ties,
matching the unspecified tie order of the heap. -/
def timersPeekMin : List Timer → Option Timer
  | [] => none
  | t :: rest =>
    match timersPeekMin rest with
    | none => some t
    | some u => if t.fire_after ≤ u.fire_after then some t else some u

/-- Heap pop: removes the timer `timersPeekMin` returns. -/
def timersPopMin : List Timer → List Timer
  | [] => []
  | t :: rest =>
    match timersPeekMin rest with
    | none => rest
    | some u => if t.fire_after ≤ u.fire_after then rest else t :: timersPopMin rest

/-- Result of `RawPeer::check_timers`: either the popped token of an expired
timer or the remaining time to the soonest one. -/
inductive TimerCheck where
  | expired (token : Nat)
  | notYet (remaining : Nat)

/-- Source: `RawPeer::check_timers` (rpc_peer.rs:331-343): peeks the soonest
timer; if it has not fired yet returns the remaining duration, otherwise pops
it and returns its token. -/
def check_timers (s : PeerState) (now : Nat) : PeerState × Option TimerCheck :=
  match timersPeekMin s.timers with
  | none => (s, none)
  | some t =>
    if now < t.fire_after then (s, some (TimerCheck.notYet (t.fire_after - now)))
    else ({ s with timers := timersPopMin s.timers }, some (TimerCheck.expired t.token))

/-- Source: `RawPeer::handle_disconnect` (rpc_peer.rs:359-374): broadcasts the
terminal state, drains the pending table invoking every handler with the
disconnect error, and marks needs-exit.  The `try_lock` on the pending table
succeeds in the uncontended sequential model; the loop over the collected ids
removes and invokes each pending handler in table order. -/
def handle_disconnect (s : PeerState) (state : RunningState) : PeerState × List Event :=
  ({ s with running_state := state, pending := [], needs_exit := true },
   Event.broadcast state ::
     s.pending.map (fun p => Event.invoked p.2 (Except.error PluginError.peerDisconnect)))

/-- Source: `RawPeer::shutdown` (rpc_peer.rs:345-350). -/
def shutdown (s : PeerState) (plugin_id : Int) : PeerState × List Event :=
  handle_disconnect s (RunningState.stopped plugin_id)

/-- Source: `RawPeer::unexpected_disconnect` (rpc_peer.rs:352-357); the error
argument of the source is only traced, so it is not a parameter here. -/
def unexpected_disconnect (s : PeerState) (plugin_id : Int) : PeerState × List Event :=
  handle_disconnect s (RunningState.unexpectedStop plugin_id)

/-- Source: `RawPeer::notify_running` (rpc_peer.rs:385-394): transitions the
watch channel to Running unless it already is Running. -/
def notify_running (s : PeerState) (plugin_id : Int) : PeerState × List Event :=
  if s.running_state.isRunning then (s, [])
  else
    ({ s with running_state := RunningState.running plugin_id },
     [Event.broadcast (RunningState.running plugin_id)])

/-- Source: `RawPeer::respond` (rpc_peer.rs:172-186): builds the response
envelope and sends it.  A streaming payload is not supported as a reply and is
only logged, so the envelope then carries just the id; a write failure is only
logged, so the write is modelled as succeeding. -/
def respond (s : PeerState) (result : Except RemoteError ResponsePayload)
    (id : Nat) : PeerState × List Event :=
  let response :=
    match result with
    | Except.ok (ResponsePayload.json v) =>
      Json.obj [("id", Json.num id), ("result", v)]
    | Except.ok _ => Json.obj [("id", Json.num id)]
    | Except.error e => Json.obj [("id", Json.num id), ("error", e.payload)]
  (s, [Event.sent response])

/-- Source: `WeakPluginState::handle_request` (manager.rs:227-234): acks every
decoded request with an empty JSON object. -/
def WeakPluginState.handle_request (_cmd : String) : Except RemoteError ResponsePayload :=
  Except.ok (ResponsePayload.json (Json.obj []))

/-- Source: one iteration of the read-thread loop (rpc_loop.rs:150-198).
`next` is the outcome of `MessageReader::next` on the child stdout.  Returns
the new peer state, the emitted events, and whether the loop breaks.  On a
read error the branch depends on the is-blocking flag: a parked synchronous
caller is fast-failed by an immediate unexpected disconnect, otherwise the
error is queued for the dispatch thread.  On any successfully read line the
peer is first notified running, then the line is classified. -/
def read_thread_step (s : PeerState) (pid : Int)
    (next : Except ReadError (Option RpcObject)) : PeerState × List Event × Bool :=
  if s.needs_exit then (s, [], true)
  else
    match next with
    | Except.error err =>
      if s.is_blocking then
        let (s, evs) := unexpected_disconnect s pid
        (s, evs, true)
      else
        (put_rpc_object s (Except.error err), [], true)
    | Except.ok json =>
      let (s, evs0) := notify_running s pid
      match json with
      | none => (s, evs0, false)
      | some json =>
        if json.is_shutdown then
          if s.is_blocking then
            let (s, evs) := shutdown s pid
            (s, evs0 ++ evs, true)
          else (s, evs0, true)
        else if json.is_response then
          match json.get_id with
          | some request_id =>
            match json.into_response with
            | Except.ok resp =>
              let (s, evs) :=
                handle_response s request_id (resp.mapError RemoteError.toPluginError)
              (s, evs0 ++ evs, false)
            | Except.error _msg =>
              let (s, evs) :=
                handle_response s request_id (Except.error PluginError.invalidResponse)
              (s, evs0 ++ evs, false)
          | none => (s, evs0, false)
        else (put_rpc_object s (Except.ok json), evs0, false)

/-- Source: rpc_loop.rs:15. -/
def MAX_IDLE_WAIT : Nat := 5

/-- What a single pass of the `next_read` loop body did. -/
inductive NextReadStep where
  | got (r : Except ReadError RpcObject)
  | poppedTimer (token : Nat)
  | timedOut

/-- Source: one pass of the `next_read` loop body (rpc_loop.rs:263-288): try
the rx queue; then check timers — an expired timer is popped and the loop
continues (`Some(Ok(_token)) => continue`); otherwise wait on the condvar for
`min(time_to_next_timer, MAX_IDLE_WAIT)`.  The third component is the wait
duration handed to `get_rx_timeout`, `none` when no wait happened. -/
def next_read_iter (s : PeerState) (now : Nat)
    (arrivals : List (Except ReadError RpcObject)) :
    PeerState × NextReadStep × Option Nat :=
  let (s1, popped) := try_get_rx s
  match popped with
  | some result => (s1, NextReadStep.got result, none)
  | none =>
    let (s2, timerResult) := check_timers s1 now
    match timerResult with
    | some (TimerCheck.expired token) => (s2, NextReadStep.poppedTimer token, none)
    | other =>
      let time_to_next_timer : Option Nat :=
        match other with
        | some (TimerCheck.notYet d) => some d
        | _ => none
      let idle_timeout := min (time_to_next_timer.getD MAX_IDLE_WAIT) MAX_IDLE_WAIT
      let (s3, got) := get_rx_timeout s2 arrivals
      match got with
      | some result => (s3, NextReadStep.got result, some idle_timeout)
      | none => (s3, NextReadStep.timedOut, some idle_timeout)

/-- Source: the `next_read` loop (rpc_loop.rs:263-288), run to completion with
fuel.  `arrivals` schedules what the read thread enqueues during each condvar
wait; a popped timer token is discarded and the loop continues, exactly as in
the source. -/
def next_read (fuel : Nat) (s : PeerState) (now : Nat)
    (arrivals : List (List (Except ReadError RpcObject))) :
    PeerState × Option (Except ReadError RpcObject) :=
  match fuel with
  | 0 => (s, none)
  | fuel + 1 =>
    let (s', step, _wait) := next_read_iter s now (arrivals.head?.getD [])
    match step with
    | NextReadStep.got r => (s', some r)
    | NextReadStep.poppedTimer _token => next_read fuel s' now arrivals
    | NextReadStep.timedOut => next_read fuel s' now arrivals.tail

/-- Source: the tail of the main processing loop body (rpc_loop.rs:213-248):
dispatch of one read result.  The third component is `some err` when the loop
returns (exits) with that error, `none` when it continues. -/
def dispatchResult (s : PeerState) (pid : Int)
    (r : Except ReadError RpcObject) : PeerState × List Event × Option ReadError :=
  match r with
  | Except.error err =>
    let (s, evs) := unexpected_disconnect s pid
    (s, evs, some err)
  | Except.ok json =>
    if json.is_shutdown then
      let (s, evs) := shutdown s pid
      (s, evs, some (ReadError.io "plugin shutdown"))
    else
      match json.into_rpc with
      | Except.ok (Call.request id _pluginId cmd) =>
        let result := WeakPluginState.handle_request cmd
        let (s, evs) := respond s result id
        (s, evs, none)
      | Except.ok (Call.invalidRequest id err) =>
        let (s, evs) := respond s (Except.error { payload := err }) id
        (s, evs, none)
      | Except.ok (Call.message m) => (s, [Event.log m], none)
      | Except.error msg =>
        let (s, evs) := unexpected_disconnect s pid
        (s, evs, some (ReadError.unknownRequest msg))

/-- Source: one iteration of the main processing loop (rpc_loop.rs:202-249):
`next_read` followed by the dispatch of its result.  The panic guard fires
only while unwinding, which the sequential model does not exercise; exhausted
fuel while idling yields a continue with no effects. -/
def dispatch_iter (fuel : Nat) (s : PeerState) (pid : Int) (now : Nat)
    (arrivals : List (List (Except ReadError RpcObject))) :
    PeerState × List Event × Option ReadError :=
  match next_read fuel s now arrivals with
  | (s1, some r) => dispatchResult s1 pid r
  | (s1, none) => (s1, [], none)

/-- Modelled from the spec: `OperatingSystem` (util.rs is not among the
sources at hand); the spec only distinguishes desktop platforms from mobile
ones flagged "not desktop" (section 4.5). -/
inductive OperatingSystem where
  | desktop
  | mobile

/-- Source: the `is_not_desktop` test used throughout manager.rs. -/
def OperatingSystem.is_not_desktop : OperatingSystem → Bool
  | .desktop => false
  | .mobile => true

/-- Modelled from the spec: `PluginInfo`, the launch descriptor of section 3
(plugin.rs is not among the sources at hand); only the logical name is
consulted by the manager code under verification. -/
structure PluginInfo where
  name : String
  exec_path : String

/-- Source: `PluginManager` (manager.rs:20-25).  `plugins` models
`PluginState.plugins` as the ids of the connected plugins;
`running_plugins` maps logical names to ids. -/
structure PluginManager where
  plugins : List Int
  plugin_id_counter : Int
  operating_system : OperatingSystem
  running_plugins : List (String × Int)

/-- Outcome of `create_plugin`: the new manager state, the returned value,
and whether `start_plugin_process` was reached. -/
structure CreatePluginResult where
  manager : PluginManager
  result : Except PluginError Int
  spawned : Bool

/-- Source: `PluginManager::create_plugin` (manager.rs:45-75): refuses on a
non-desktop platform, then refuses a duplicate logical name, then allocates
the next id, registers the name, and spawns.  The outcome of
`start_plugin_process` is supplied as `spawn`; on its success the connected
plugin is registered in the state (via `plugin_connect`, per plugin.rs and the
spec, section 4.5), on its failure the error is returned with the name left
registered. -/
def create_plugin (m : PluginManager) (info : PluginInfo)
    (spawn : Except PluginError Unit) : CreatePluginResult :=
  if m.operating_system.is_not_desktop then
    { manager := m,
      result := Except.error (PluginError.internal "plugin not supported on this platform"),
      spawned := false }
  else if (alistLookup m.running_plugins info.name).isSome then
    { manager := m,
      result := Except.error (PluginError.internal "plugin already running"),
      spawned := false }
  else
    let plugin_id := m.plugin_id_counter
    let m := { m with
      plugin_id_counter := m.plugin_id_counter + 1,
      running_plugins := alistInsert m.running_plugins info.name plugin_id }
    match spawn with
    | Except.error e => { manager := m, result := Except.error e, spawned := true }
    | Except.ok _ =>
      { manager := { m with plugins := m.plugins ++ [plugin_id] },
        result := Except.ok plugin_id,
        spawned := true }

/-- Source: `PluginManager::get_plugin` (manager.rs:77-85): finds the plugin
by id (no platform check); the weak reference handed out is modelled by the
id found. -/
def get_plugin (m : PluginManager) (plugin_id : Int) : Except PluginError Int :=
  match m.plugins.find? (fun p => p == plugin_id) with
  | some p => Except.ok p
  | none => Except.error PluginError.pluginNotConnected

/-- Source: `PluginManager::remove_plugin` (manager.rs:88-107): refuses on a
non-desktop platform; otherwise disconnects the plugin record (removing it and
driving its shutdown when present) and removes its name from the registry. -/
def remove_plugin (m : PluginManager) (id : Int) :
    PluginManager × List Event × Except PluginError Unit :=
  if m.operating_system.is_not_desktop then
    (m, [], Except.error (PluginError.internal "plugin not supported on this platform"))
  else
    let found := m.plugins.contains id
    let m1 := { m with plugins := m.plugins.filter (fun p => p != id) }
    let evs := if found then [Event.pluginShutdown id] else []
    let key := (m1.running_plugins.find? (fun p => p.2 == id)).map (fun p => p.1)
    let m2 :=
      match key with
      | some name => { m1 with running_plugins := alistErase m1.running_plugins name }
      | none => m1
    (m2, evs, Except.ok ())

/-- Source: `PluginManager::init_plugin` (manager.rs:109-128): refuses on a
non-desktop platform; otherwise looks the plugin up and initializes it.  The
upgrade of the weak reference succeeds in the sequential model (the registry
holds the plugin strongly); the outcome of `Plugin::initialize` (plugin.rs is
not among the sources at hand) is supplied as `initResult`. -/
def init_plugin (m : PluginManager) (id : Int)
    (initResult : Except PluginError Unit) : Except PluginError Int :=
  if m.operating_system.is_not_desktop then
    Except.error (PluginError.internal "plugin not supported on this platform")
  else
    match get_plugin m id with
    | Except.error e => Except.error e
    | Except.ok p =>
      match initResult with
      | Except.error e => Except.error e
      | Except.ok _ => Except.ok p

/-- Source: `PluginManager::send_request` (manager.rs:130-144): no platform
check; looks the plugin up, performs the blocking request (its outcome is
supplied, plugin.rs not being among the sources at hand) and runs the domain
parser, whose remote errors convert into plugin errors. -/
def manager_send_request (m : PluginManager) (id : Int)
    (reqResult : Except PluginError Json)
    (parse_json : Json → Except RemoteError Json) : Except PluginError Json :=
  match get_plugin m id with
  | Except.error e => Except.error e
  | Except.ok _p =>
    match reqResult with
    | Except.error e => Except.error e
    | Except.ok resp => (parse_json resp).mapError RemoteError.toPluginError

/-- Source: `PluginManager::async_send_request` (manager.rs:146-159): no
platform check; looks the plugin up and awaits the typed async request, whose
outcome is supplied. -/
def manager_async_send_request (m : PluginManager) (id : Int)
    (reqResult : Except PluginError Json) : Except PluginError Json :=
  match get_plugin m id with
  | Except.error e => Except.error e
  | Except.ok _p => reqResult

/-- A response that is a streaming frame and not the terminal one — the
condition under which `handle_response` re-installs a stream callback. -/
def streamContinues : Except PluginError ResponsePayload → Bool
  | Except.ok r => r.is_stream && !r.is_stream_end
  | Except.error _ => false

/-- A serde parse outcome that is not a JSON object: either the line failed
to parse (`none`) or parsed to a non-object value. -/
def notAnObject : Option Json → Bool
  | some v => !v.isObject
  | none => true

/-- True exactly on handler invocations. -/
def Event.isInvoked : Event → Bool
  | .invoked _ _ => true
  | _ => false

/-! ## Theorems -/

theorem alistLookup_insert_self {α β : Type} [DecidableEq α]
    (l : List (α × β)) (k : α) (v : β) : alistLookup (alistInsert l k v) k = some v := by
  simp [alistInsert, alistLookup]

theorem alistLookup_erase_self {α β : Type} [DecidableEq α]
    (l : List (α × β)) (k : α) : alistLookup (alistErase l k) k = none := by
  induction l with
  | nil => rfl
  | cons p rest ih =>
    by_cases h : p.1 = k
    · simpa [alistErase, h] using ih
    · simpa [alistErase, alistLookup, h] using ih

theorem alistLookup_erase_ne {α β : Type} [DecidableEq α]
    (l : List (α × β)) (k j : α) (h : j ≠ k) :
    alistLookup (alistErase l k) j = alistLookup l j := by
  have hkj : k ≠ j := Ne.symm h
  induction l with
  | nil => rfl
  | cons p rest ih =>
    by_cases hk : p.1 = k
    · have hpj : ¬ p.1 = j := fun hpj => hkj (hk ▸ hpj)
      calc alistLookup (alistErase (p :: rest) k) j
          = alistLookup (alistErase rest k) j := by
            simp [alistErase, List.filter_cons, hk]
        _ = alistLookup rest j := ih
        _ = alistLookup (p :: rest) j := by simp [alistLookup, hpj]
    · calc alistLookup (alistErase (p :: rest) k) j
          = alistLookup (p :: alistErase rest k) j := by
            simp [alistErase, List.filter_cons, hk]
        _ = alistLookup (p :: rest) j := by
            by_cases hj : p.1 = j
            · simp [alistLookup, hj]
            · simp [alistLookup, hj, ih]

theorem alistLookup_insert_ne {α β : Type} [DecidableEq α]
    (l : List (α × β)) (k j : α) (v : β) (h : j ≠ k) :
    alistLookup (alistInsert l k v) j = alistLookup l j := by
  have hk : k ≠ j := fun hkj => h hkj.symm
  simp [alistInsert, alistLookup, hk]
  exact alistLookup_erase_ne l k j h

/-- C1: every call to shutdown or to unexpected_disconnect on a RawPeer
broadcasts the corresponding terminal RunningState (Stopped for shutdown,
UnexpectedStop for unexpected_disconnect), removes every handler then present
in the pending table and invokes each of them exactly once with the
PeerDisconnect error — leaving the pending table empty — and sets the
needs-exit flag. -/
theorem claim_C1_disconnect_drains_pending (s : PeerState) (pid : Int) :
    (shutdown s pid).1.running_state = RunningState.stopped pid
    ∧ (shutdown s pid).1.pending = []
    ∧ (shutdown s pid).1.needs_exit = true
    ∧ (shutdown s pid).2 =
        Event.broadcast (RunningState.stopped pid) ::
          s.pending.map
            (fun p => Event.invoked p.2 (Except.error PluginError.peerDisconnect))
    ∧ (unexpected_disconnect s pid).1.running_state = RunningState.unexpectedStop pid
    ∧ (unexpected_disconnect s pid).1.pending = []
    ∧ (unexpected_disconnect s pid).1.needs_exit = true
    ∧ (unexpected_disconnect s pid).2 =
        Event.broadcast (RunningState.unexpectedStop pid) ::
          s.pending.map
            (fun p => Event.invoked p.2 (Except.error PluginError.peerDisconnect)) :=
  ⟨rfl, rfl, rfl, rfl, rfl, rfl, rfl, rfl⟩

/-- C2: on the common send path `send_rpc`, a failed stdin write invokes the
supplied handler exactly once with an Io error, never inserts it into the
pending table and leaves every other part of the peer untouched (only the id
counter advanced — no other in-flight request is failed and the peer stays
alive); a successful write inserts the handler into the pending table under
the freshly allocated id. -/
theorem claim_C2_send_rpc_write_failure (s : PeerState) (method : String)
    (params : Json) (h : ResponseHandler) :
    send_rpc s method params h false =
      ({ s with request_id_counter := s.request_id_counter + 1 },
       [Event.invoked h (Except.error (PluginError.io "write failed"))])
    ∧ (send_rpc s method params h true).1 =
        { s with request_id_counter := s.request_id_counter + 1,
                 pending := alistInsert s.pending s.request_id_counter h }
    ∧ (send_rpc s method params h true).2 =
        [Event.sent (mkRequestMsg s.request_id_counter method params)] :=
  ⟨rfl, rfl, rfl⟩

/-- The pending table after `handle_response`, in closed form: the entry under
the id is erased, and re-created only for a continuing stream with a stored
stream callback. -/
theorem handle_response_pending_eq (s : PeerState) (id : Nat)
    (resp : Except PluginError ResponsePayload) :
    (handle_response s id resp).1.pending =
      (match alistLookup s.pending id with
       | some (ResponseHandler.streamCallback t) =>
         if streamContinues resp then
           alistInsert (alistErase s.pending id) id (ResponseHandler.streamCallback t)
         else alistErase s.pending id
       | _ => alistErase s.pending id) := by
  rcases hl : alistLookup s.pending id with _ | h
  · rcases resp with e | p
    · simp [handle_response, hl]
    · cases p <;> simp [handle_response, hl, streamContinues]
  · rcases resp with e | p
    · cases h <;>
        simp [handle_response, hl, streamContinues, ResponseHandler.get_stream_callback,
          Except.map]
    · cases p <;> cases h <;>
        simp [handle_response, hl, streamContinues, ResponsePayload.is_stream,
          ResponsePayload.is_stream_end, ResponsePayload.into_json,
          ResponseHandler.get_stream_callback, Except.map]

/-- C3: handle_response removes the handler stored under the response id; when
the payload is a streaming frame and not the terminal one and the stored
handler is a streaming callback, the same callback is re-inserted under the
same id, so it stays installed; any other stored handler — in particular a
non-streaming one — is not re-inserted, and entries under other ids are
untouched. -/
theorem claim_C3_handle_response_pending (s : PeerState) (id : Nat)
    (resp : Except PluginError ResponsePayload) :
    (∀ j, j ≠ id →
      alistLookup (handle_response s id resp).1.pending j = alistLookup s.pending j)
    ∧ alistLookup (handle_response s id resp).1.pending id =
        (match alistLookup s.pending id with
         | some (ResponseHandler.streamCallback t) =>
           if streamContinues resp then some (ResponseHandler.streamCallback t) else none
         | _ => none) := by
  have hpend := handle_response_pending_eq s id resp
  constructor
  · intro j hj
    rw [hpend]
    rcases hl : alistLookup s.pending id with _ | h
    · exact alistLookup_erase_ne s.pending id j hj
    · cases h with
      | chan t => exact alistLookup_erase_ne s.pending id j hj
      | callback t => exact alistLookup_erase_ne s.pending id j hj
      | streamCallback t =>
        by_cases hc : streamContinues resp
        · simp only [hc, if_true]
          rw [alistLookup_insert_ne _ id j _ hj]
          exact alistLookup_erase_ne s.pending id j hj
        · simp only [hc, if_false]
          exact alistLookup_erase_ne s.pending id j hj
  · rw [hpend]
    rcases hl : alistLookup s.pending id with _ | h
    · exact alistLookup_erase_self s.pending id
    · cases h with
      | chan t => exact alistLookup_erase_self s.pending id
      | callback t => exact alistLookup_erase_self s.pending id
      | streamCallback t =>
        by_cases hc : streamContinues resp
        · simp only [hc, if_true]
          exact alistLookup_insert_self _ id _
        · simp only [hc, if_false]
          exact alistLookup_erase_self s.pending id

/-- C3 witness: a streaming (non-terminal) frame for id 4 keeps the streaming
callback installed under id 4 and leaves the entry under id 7 alone. -/
theorem claim_C3_handle_response_pending_witness :
    alistLookup (handle_response
      { rxQueue := [], pending := [(4, ResponseHandler.streamCallback 9)],
        request_id_counter := 5, timers := [], needs_exit := false,
        is_blocking := false, running_state := RunningState.running 1 }
      4 (Except.ok (ResponsePayload.streaming (Json.str "x")))).1.pending 7 =
      alistLookup [(4, ResponseHandler.streamCallback 9)] 7
    ∧ alistLookup (handle_response
      { rxQueue := [], pending := [(4, ResponseHandler.streamCallback 9)],
        request_id_counter := 5, timers := [], needs_exit := false,
        is_blocking := false, running_state := RunningState.running 1 }
      4 (Except.ok (ResponsePayload.streaming (Json.str "x")))).1.pending 4 =
      some (ResponseHandler.streamCallback 9) := by
  refine ⟨(claim_C3_handle_response_pending _ 4 _).1 7 (by decide), ?_⟩
  have h := (claim_C3_handle_response_pending
    { rxQueue := [], pending := [(4, ResponseHandler.streamCallback 9)],
      request_id_counter := 5, timers := [], needs_exit := false,
      is_blocking := false, running_state := RunningState.running 1 }
    4 (Except.ok (ResponsePayload.streaming (Json.str "x")))).2
  rw [h]
  simp [alistLookup, streamContinues, ResponsePayload.is_stream,
    ResponsePayload.is_stream_end]

/-- C4 counterexample: a terminal StreamEnd frame whose payload is the
non-empty value "data" arrives for id 5, where a streaming callback is
installed; the callback is nevertheless not invoked (no events at all) —
`into_json` drops every StreamEnd payload — and it is removed from the
pending table.  The claim that the callback is invoked for the terminal frame
when its payload is non-empty is therefore false. -/
theorem claim_C4_counterexample :
    (handle_response
      { rxQueue := [], pending := [(5, ResponseHandler.streamCallback 3)],
        request_id_counter := 6, timers := [], needs_exit := false,
        is_blocking := false, running_state := RunningState.running 1 }
      5 (Except.ok (ResponsePayload.streamEnd (Json.str "data")))).2 = []
    ∧ (handle_response
      { rxQueue := [], pending := [(5, ResponseHandler.streamCallback 3)],
        request_id_counter := 6, timers := [], needs_exit := false,
        is_blocking := false, running_state := RunningState.running 1 }
      5 (Except.ok (ResponsePayload.streamEnd (Json.str "data")))).1.pending = [] :=
  ⟨rfl, rfl⟩

/-- C4 (amended): for every streaming request whose multi-shot callback is
installed under its id, the callback is invoked with the payload for every
non-terminal streaming frame that arrives for the id and stays installed;
for the terminal (StreamEnd) frame the callback is never invoked — the
terminal payload is dropped regardless of whether it is empty — and the
callback is removed from the pending table. -/
theorem claim_C4_stream_callback_invocation (s : PeerState) (id : Nat)
    (v : Json) (t : Nat)
    (h : alistLookup s.pending id = some (ResponseHandler.streamCallback t)) :
    (handle_response s id (Except.ok (ResponsePayload.streaming v))).2 =
      [Event.invoked (ResponseHandler.streamCallback t) (Except.ok v)]
    ∧ alistLookup
        (handle_response s id (Except.ok (ResponsePayload.streaming v))).1.pending id =
        some (ResponseHandler.streamCallback t)
    ∧ (handle_response s id (Except.ok (ResponsePayload.streamEnd v))).2 = []
    ∧ alistLookup
        (handle_response s id (Except.ok (ResponsePayload.streamEnd v))).1.pending id =
        none := by
  refine ⟨?_, ?_, ?_, ?_⟩
  · simp [handle_response, h, ResponsePayload.is_stream, ResponsePayload.is_stream_end,
      ResponsePayload.into_json, ResponseHandler.get_stream_callback, Except.map]
  · have h2 := handle_response_pending_eq s id (Except.ok (ResponsePayload.streaming v))
    rw [h] at h2
    rw [h2]
    simp [streamContinues, ResponsePayload.is_stream, ResponsePayload.is_stream_end,
      alistLookup_insert_self]
  · simp [handle_response, h, ResponsePayload.is_stream, ResponsePayload.is_stream_end,
      ResponsePayload.into_json, Except.map]
  · have h2 := handle_response_pending_eq s id (Except.ok (ResponsePayload.streamEnd v))
    rw [h] at h2
    rw [h2]
    simp [streamContinues, ResponsePayload.is_stream, ResponsePayload.is_stream_end,
      alistLookup_erase_self]

/-- C4 witness: the amended behavior at a concrete streaming frame. -/
theorem claim_C4_stream_callback_invocation_witness :
    (handle_response
      { rxQueue := [], pending := [(2, ResponseHandler.streamCallback 8)],
        request_id_counter := 3, timers := [], needs_exit := false,
        is_blocking := false, running_state := RunningState.running 1 }
      2 (Except.ok (ResponsePayload.streaming (Json.str "frame")))).2 =
      [Event.invoked (ResponseHandler.streamCallback 8) (Except.ok (Json.str "frame"))] :=
  (claim_C4_stream_callback_invocation
    { rxQueue := [], pending := [(2, ResponseHandler.streamCallback 8)],
      request_id_counter := 3, timers := [], needs_exit := false,
      is_blocking := false, running_state := RunningState.running 1 }
    2 (Json.str "frame") 8 rfl).1

/-- No disconnect drain ever delivers a timer token to the idle hook. -/
theorem handle_disconnect_no_idle (s : PeerState) (st : RunningState) :
    ((handle_disconnect s st).2.all (fun e => !e.isIdleCall)) = true := by
  apply List.all_eq_true.mpr
  intro e he
  rcases List.mem_cons.mp he with h | h
  · subst h; rfl
  · rcases List.mem_map.mp h with ⟨p, _, rfl⟩; rfl

/-- The dispatch of a read result never delivers a timer token to the idle
hook: its events are broadcasts, handler invocations, writes and logs only. -/
theorem dispatchResult_no_idle (s : PeerState) (pid : Int)
    (r : Except ReadError RpcObject) :
    ((dispatchResult s pid r).2.1.all (fun e => !e.isIdleCall)) = true := by
  rcases r with err | json
  · simpa [dispatchResult, unexpected_disconnect] using
      handle_disconnect_no_idle s (RunningState.unexpectedStop pid)
  · by_cases hs : json.is_shutdown
    · simpa [dispatchResult, hs, shutdown] using
        handle_disconnect_no_idle s (RunningState.stopped pid)
    · rcases hr : json.into_rpc with msg | call
      · simpa [dispatchResult, hs, hr, unexpected_disconnect] using
          handle_disconnect_no_idle s (RunningState.unexpectedStop pid)
      · cases call <;>
          simp [dispatchResult, hs, hr, respond, WeakPluginState.handle_request,
            Event.isIdleCall]

/-- A full main-processing-loop iteration never delivers a timer token to the
idle hook. -/
theorem dispatch_iter_no_idle (fuel : Nat) (s : PeerState) (pid : Int) (now : Nat)
    (sched : List (List (Except ReadError RpcObject))) :
    ((dispatch_iter fuel s pid now sched).2.1.all (fun e => !e.isIdleCall)) = true := by
  unfold dispatch_iter
  rcases hnr : next_read fuel s now sched with ⟨s1, r⟩
  rcases r with _ | rr
  · simp
  · exact dispatchResult_no_idle s1 pid rr

/-- C5 (amended): on each dispatch-loop iteration with an empty rx queue, the
soonest fire-after gates the maximum idle wait — the duration handed to the
condvar wait is min(time-to-next-timer, MAX_IDLE_WAIT = 5 ms) — and every
expired timer is popped; its token, however, is discarded by the loop
(the `continue` of next_read): no iteration of the main processing loop ever
delivers a token to the handler idle hook. -/
theorem claim_C5_timer_discipline (s : PeerState) (now : Nat)
    (arrivals : List (Except ReadError RpcObject)) (t : Timer)
    (fuel : Nat) (pid : Int) (sched : List (List (Except ReadError RpcObject)))
    (hq : s.rxQueue = []) :
    (timersPeekMin s.timers = some t → t.fire_after ≤ now →
      next_read_iter s now arrivals =
        ({ s with timers := timersPopMin s.timers },
         NextReadStep.poppedTimer t.token, none))
    ∧ (timersPeekMin s.timers = some t → now < t.fire_after →
      (next_read_iter s now arrivals).2.2 =
        some (min (t.fire_after - now) MAX_IDLE_WAIT))
    ∧ (timersPeekMin s.timers = none →
      (next_read_iter s now arrivals).2.2 = some MAX_IDLE_WAIT)
    ∧ ((dispatch_iter fuel s pid now sched).2.1.all (fun e => !e.isIdleCall)) = true := by
  refine ⟨?_, ?_, ?_, dispatch_iter_no_idle fuel s pid now sched⟩
  · intro hpeek hexp
    have hlt : ¬ now < t.fire_after := Nat.not_lt.mpr hexp
    simp [next_read_iter, try_get_rx, hq, check_timers, hpeek, hlt]
  · intro hpeek hlt
    rcases hg : get_rx_timeout s arrivals with ⟨s3, g⟩
    rcases g with _ | r <;>
      simp [next_read_iter, try_get_rx, hq, check_timers, hpeek, hlt, hg]
  · intro hpeek
    rcases hg : get_rx_timeout s arrivals with ⟨s3, g⟩
    rcases g with _ | r <;>
      simp [next_read_iter, try_get_rx, hq, check_timers, hpeek, hg, MAX_IDLE_WAIT]

/-- C5 witness: a timer scheduled to fire at instant 2, checked at instant 3
with an empty rx queue, is popped with its token 7 and the loop continues. -/
theorem claim_C5_timer_discipline_witness :
    next_read_iter
      { rxQueue := [], pending := [], request_id_counter := 0,
        timers := [{ fire_after := 2, token := 7 }], needs_exit := false,
        is_blocking := false, running_state := RunningState.running 9 } 3 [] =
      ({ rxQueue := [], pending := [], request_id_counter := 0, timers := [],
         needs_exit := false, is_blocking := false,
         running_state := RunningState.running 9 },
       NextReadStep.poppedTimer 7, none) := by
  have h := (claim_C5_timer_discipline
    { rxQueue := [], pending := [], request_id_counter := 0,
      timers := [{ fire_after := 2, token := 7 }], needs_exit := false,
      is_blocking := false, running_state := RunningState.running 9 } 3 []
    { fire_after := 2, token := 7 } 1 9 [] rfl).1 rfl (by decide)
  simpa [timersPopMin, timersPeekMin] using h

/-- C5 counterexample: a full dispatch-loop iteration on a peer with a timer
that expired at instant 2 (now = 3): the timer is popped (the resulting state
has no timers) but the only event of the iteration is the log of the message
that later arrived — the token 7 is never delivered to the handler idle hook
(no Event.idleCall occurs), refuting the delivery part of the claim. -/
theorem claim_C5_counterexample :
    dispatch_iter 3
      { rxQueue := [], pending := [], request_id_counter := 0,
        timers := [{ fire_after := 2, token := 7 }], needs_exit := false,
        is_blocking := false, running_state := RunningState.running 9 }
      9 3 [[Except.ok { value := Json.obj [("message", Json.str "hi")] }]] =
      ({ rxQueue := [], pending := [], request_id_counter := 0, timers := [],
         needs_exit := false, is_blocking := false,
         running_state := RunningState.running 9 },
       [Event.log (Json.obj [("message", Json.str "hi")])], none) := by
  rfl

/-- C6 counterexample: the plugin is in ReadyToConnect state and a non-JSON
line (serde parse fails on "oops") arrives; the read thread changes the
RunningState to Running — refuting the part of the claim that says the
RunningState is unchanged by a non-JSON line. -/
theorem claim_C6_counterexample :
    MessageReader.parse "oops" none =
      Except.ok { value := Json.obj [("message", Json.str "oops")] }
    ∧ (read_thread_step
        { rxQueue := [], pending := [], request_id_counter := 0, timers := [],
          needs_exit := false, is_blocking := false,
          running_state := RunningState.readyToConnect }
        4 (Except.ok (some { value := Json.obj [("message", Json.str "oops")] }))).1.running_state =
      RunningState.running 4 :=
  ⟨rfl, rfl⟩

/-- C6 (amended): every non-JSON (or non-object) line read from the child is
surfaced verbatim as a message object — not as an error — is queued and then
dispatched as a Message log entry: no handler is invoked, no error is
produced, and the peer state is unchanged except for the rx queue and the
idempotent first-line transition of the RunningState to Running that every
inbound line triggers. -/
theorem claim_C6_non_json_line (raw : String) (parsed : Option Json)
    (s : PeerState) (u : PeerState) (pid : Int)
    (hp : notAnObject parsed = true) (hne : s.needs_exit = false) :
    MessageReader.parse raw parsed =
      Except.ok { value := Json.obj [("message", Json.str raw)] }
    ∧ (read_thread_step s pid
        (Except.ok (some { value := Json.obj [("message", Json.str raw)] }))) =
      (if s.running_state.isRunning then
         ({ s with rxQueue := s.rxQueue ++
             [Except.ok { value := Json.obj [("message", Json.str raw)] }] }, [], false)
       else
         ({ s with
             rxQueue :=
               (s.rxQueue ++ [Except.ok { value := Json.obj [("message", Json.str raw)] }]),
             running_state := RunningState.running pid },
          [Event.broadcast (RunningState.running pid)], false))
    ∧ dispatchResult u pid
        (Except.ok { value := Json.obj [("message", Json.str raw)] }) =
      (u, [Event.log (Json.obj [("message", Json.str raw)])], none) := by
  have hsd : RpcObject.is_shutdown { value := Json.obj [("message", Json.str raw)] } = false :=
    rfl
  have hsr : RpcObject.is_response { value := Json.obj [("message", Json.str raw)] } = false :=
    rfl
  have hrpc : RpcObject.into_rpc { value := Json.obj [("message", Json.str raw)] } =
      Except.ok (Call.message (Json.obj [("message", Json.str raw)])) := rfl
  refine ⟨?_, ?_, ?_⟩
  · rcases parsed with _ | v
    · rfl
    · have hv : v.isObject = false := by simpa [notAnObject] using hp
      simp [MessageReader.parse, hv]
  · by_cases hrun : s.running_state.isRunning <;>
      simp [read_thread_step, hne, notify_running, hrun, hsd, hsr, put_rpc_object]
  · simp [dispatchResult, hsd, hrpc]

/-- C6 witness: the amended behavior at the concrete non-JSON line "oops" on
an already-running peer. -/
theorem claim_C6_non_json_line_witness :
    MessageReader.parse "oops" none =
      Except.ok { value := Json.obj [("message", Json.str "oops")] }
    ∧ (read_thread_step
        { rxQueue := [], pending := [], request_id_counter := 0, timers := [],
          needs_exit := false, is_blocking := false,
          running_state := RunningState.running 4 }
        4 (Except.ok (some { value := Json.obj [("message", Json.str "oops")] }))) =
      ({ rxQueue := [Except.ok { value := Json.obj [("message", Json.str "oops")] }],
         pending := [], request_id_counter := 0, timers := [], needs_exit := false,
         is_blocking := false, running_state := RunningState.running 4 }, [], false) := by
  have h := claim_C6_non_json_line "oops" none
    { rxQueue := [], pending := [], request_id_counter := 0, timers := [],
      needs_exit := false, is_blocking := false,
      running_state := RunningState.running 4 }
    { rxQueue := [], pending := [], request_id_counter := 0, timers := [],
      needs_exit := false, is_blocking := false,
      running_state := RunningState.running 4 }
    4 rfl rfl
  refine ⟨h.1, ?_⟩
  have h2 := h.2.1
  simpa using h2

/-- C7: an empty line read from the child — a zero-byte read, i.e. EOF — makes
MessageReader::next return a Disconnect read error rather than skipping or
logging the line, and the read thread then initiates the disconnect path: with
a blocked synchronous caller it disconnects at once; otherwise it queues the
error, whose dispatch disconnects — either way the peer broadcasts
UnexpectedStop, drains pending and sets needs-exit. -/
theorem claim_C7_empty_line_disconnect (parsed : Option Json) (s : PeerState)
    (u : PeerState) (pid : Int) (hne : s.needs_exit = false) :
    MessageReader.next (Except.ok "") parsed =
      Except.error (ReadError.disconnect "stdout return empty line")
    ∧ (s.is_blocking = true →
        read_thread_step s pid
          (Except.error (ReadError.disconnect "stdout return empty line")) =
          ({ s with running_state := RunningState.unexpectedStop pid,
                    pending := [], needs_exit := true },
           Event.broadcast (RunningState.unexpectedStop pid) ::
             s.pending.map
               (fun p => Event.invoked p.2 (Except.error PluginError.peerDisconnect)),
           true))
    ∧ (s.is_blocking = false →
        read_thread_step s pid
          (Except.error (ReadError.disconnect "stdout return empty line")) =
          ({ s with rxQueue := s.rxQueue ++
              [Except.error (ReadError.disconnect "stdout return empty line")] },
           [], true))
    ∧ (dispatchResult u pid
        (Except.error (ReadError.disconnect "stdout return empty line"))).1.running_state =
        RunningState.unexpectedStop pid
    ∧ (dispatchResult u pid
        (Except.error (ReadError.disconnect "stdout return empty line"))).1.needs_exit = true
    ∧ (dispatchResult u pid
        (Except.error (ReadError.disconnect "stdout return empty line"))).2.2 =
        some (ReadError.disconnect "stdout return empty line") := by
  refine ⟨rfl, ?_, ?_, rfl, rfl, rfl⟩
  · intro hb
    simp [read_thread_step, hne, hb, unexpected_disconnect, handle_disconnect]
  · intro hb
    simp [read_thread_step, hne, hb, put_rpc_object]

/-- C7 witness: the empty-line disconnect at a concrete non-blocking peer. -/
theorem claim_C7_empty_line_disconnect_witness :
    MessageReader.next (Except.ok "") none =
      Except.error (ReadError.disconnect "stdout return empty line")
    ∧ read_thread_step
        { rxQueue := [], pending := [], request_id_counter := 2, timers := [],
          needs_exit := false, is_blocking := false,
          running_state := RunningState.running 3 }
        3 (Except.error (ReadError.disconnect "stdout return empty line")) =
      ({ rxQueue := [Except.error (ReadError.disconnect "stdout return empty line")],
         pending := [], request_id_counter := 2, timers := [], needs_exit := false,
         is_blocking := false, running_state := RunningState.running 3 }, [], true) := by
  have h := claim_C7_empty_line_disconnect none
    { rxQueue := [], pending := [], request_id_counter := 2, timers := [],
      needs_exit := false, is_blocking := false,
      running_state := RunningState.running 3 }
    { rxQueue := [], pending := [], request_id_counter := 2, timers := [],
      needs_exit := false, is_blocking := false,
      running_state := RunningState.running 3 }
    3 rfl
  refine ⟨h.1, ?_⟩
  have h2 := h.2.2.1 rfl
  simpa using h2

/-- C8 counterexample: on a mobile (not-desktop) manager that holds a plugin
with id 0, get_plugin proceeds and succeeds — it does not return an Internal
error — refuting the claim that every listed operation refuses on a
not-desktop platform. -/
theorem claim_C8_counterexample :
    get_plugin
      { plugins := [0], plugin_id_counter := 1,
        operating_system := OperatingSystem.mobile,
        running_plugins := [("chat", 0)] } 0 = Except.ok 0 :=
  rfl

/-- C8 (amended): on a platform flagged not-desktop, create_plugin,
remove_plugin and init_plugin refuse with an Internal error (and create does
not reach the spawn); get_plugin, send_request and async_send_request perform
no platform check — they behave exactly as on a desktop platform. -/
theorem claim_C8_not_desktop_refusals (m : PluginManager) (info : PluginInfo)
    (spawn : Except PluginError Unit) (id : Int)
    (initResult : Except PluginError Unit) (reqResult : Except PluginError Json)
    (parse_json : Json → Except RemoteError Json) :
    (create_plugin { m with operating_system := OperatingSystem.mobile } info spawn).result =
      Except.error (PluginError.internal "plugin not supported on this platform")
    ∧ (create_plugin { m with operating_system := OperatingSystem.mobile } info spawn).spawned =
      false
    ∧ (remove_plugin { m with operating_system := OperatingSystem.mobile } id).2.2 =
      Except.error (PluginError.internal "plugin not supported on this platform")
    ∧ init_plugin { m with operating_system := OperatingSystem.mobile } id initResult =
      Except.error (PluginError.internal "plugin not supported on this platform")
    ∧ get_plugin { m with operating_system := OperatingSystem.mobile } id =
        get_plugin { m with operating_system := OperatingSystem.desktop } id
    ∧ manager_send_request { m with operating_system := OperatingSystem.mobile } id
        reqResult parse_json =
        manager_send_request { m with operating_system := OperatingSystem.desktop } id
          reqResult parse_json
    ∧ manager_async_send_request { m with operating_system := OperatingSystem.mobile } id
        reqResult =
        manager_async_send_request { m with operating_system := OperatingSystem.desktop } id
          reqResult :=
  ⟨rfl, rfl, rfl, rfl, rfl, rfl, rfl⟩

/-- C9: on a desktop manager whose running-plugins registry already binds the
logical name of the configuration, create_plugin fails with the Internal
"plugin already running" error, does not reach the spawn, and leaves the
manager unchanged — so two plugins with the same logical name never coexist. -/
theorem claim_C9_duplicate_name_refused (m : PluginManager) (info : PluginInfo)
    (spawn : Except PluginError Unit) (pid0 : Int)
    (hdesk : m.operating_system.is_not_desktop = false)
    (hdup : alistLookup m.running_plugins info.name = some pid0) :
    create_plugin m info spawn =
      { manager := m,
        result := Except.error (PluginError.internal "plugin already running"),
        spawned := false } := by
  simp [create_plugin, hdesk, hdup]

/-- C9 witness: the duplicate-name refusal at a concrete manager. -/
theorem claim_C9_duplicate_name_refused_witness :
    create_plugin
      { plugins := [0], plugin_id_counter := 1,
        operating_system := OperatingSystem.desktop,
        running_plugins := [("chat", 0)] }
      { name := "chat", exec_path := "/bin/chat" } (Except.ok ()) =
      { manager :=
          { plugins := [0], plugin_id_counter := 1,
            operating_system := OperatingSystem.desktop,
            running_plugins := [("chat", 0)] },
        result := Except.error (PluginError.internal "plugin already running"),
        spawned := false } :=
  claim_C9_duplicate_name_refused
    { plugins := [0], plugin_id_counter := 1,
      operating_system := OperatingSystem.desktop,
      running_plugins := [("chat", 0)] }
    { name := "chat", exec_path := "/bin/chat" } (Except.ok ()) 0 rfl rfl

/-- C10: create_plugin registers the logical name before spawning and does not
unregister it when start_plugin_process fails: after a failed spawn the error
is returned, no plugin record exists, yet the name stays bound to the id the
failed call allocated, so every further create_plugin with that name fails
with the Internal "plugin already running" error — until remove_plugin with
that id removes the binding (create_plugin is not atomic on error). -/
theorem claim_C10_create_plugin_not_atomic (m : PluginManager) (info : PluginInfo)
    (e : PluginError) (spawn2 : Except PluginError Unit)
    (hdesk : m.operating_system.is_not_desktop = false)
    (hfresh : alistLookup m.running_plugins info.name = none) :
    (create_plugin m info (Except.error e)).result = Except.error e
    ∧ (create_plugin m info (Except.error e)).spawned = true
    ∧ alistLookup (create_plugin m info (Except.error e)).manager.running_plugins
        info.name = some m.plugin_id_counter
    ∧ (create_plugin m info (Except.error e)).manager.plugins = m.plugins
    ∧ (create_plugin (create_plugin m info (Except.error e)).manager info spawn2).result =
        Except.error (PluginError.internal "plugin already running")
    ∧ (create_plugin (create_plugin m info (Except.error e)).manager info spawn2).spawned =
        false
    ∧ alistLookup
        (remove_plugin (create_plugin m info (Except.error e)).manager
          m.plugin_id_counter).1.running_plugins info.name = none := by
  have hcre : create_plugin m info (Except.error e) =
      { manager :=
          { m with
            plugin_id_counter := m.plugin_id_counter + 1,
            running_plugins := alistInsert m.running_plugins info.name m.plugin_id_counter },
        result := Except.error e,
        spawned := true } := by
    simp [create_plugin, hdesk, hfresh]
  rw [hcre]
  refine ⟨rfl, rfl, alistLookup_insert_self _ _ _, rfl, ?_, ?_, ?_⟩
  · simp [create_plugin, hdesk, alistLookup_insert_self]
  · simp [create_plugin, hdesk, alistLookup_insert_self]
  · simp only [remove_plugin, hdesk, Bool.false_eq_true, if_false, alistInsert]
    simp [List.find?_cons, alistLookup_erase_self]

/-- C10 witness: the non-atomic failure path at a concrete manager and a
concrete spawn error. -/
theorem claim_C10_create_plugin_not_atomic_witness :
    (create_plugin
      { plugins := [], plugin_id_counter := 0,
        operating_system := OperatingSystem.desktop, running_plugins := [] }
      { name := "chat", exec_path := "/bin/chat" }
      (Except.error (PluginError.io "spawn failed"))).result =
      Except.error (PluginError.io "spawn failed")
    ∧ (create_plugin
        (create_plugin
          { plugins := [], plugin_id_counter := 0,
            operating_system := OperatingSystem.desktop, running_plugins := [] }
          { name := "chat", exec_path := "/bin/chat" }
          (Except.error (PluginError.io "spawn failed"))).manager
        { name := "chat", exec_path := "/bin/chat" } (Except.ok ())).result =
      Except.error (PluginError.internal "plugin already running")
    ∧ alistLookup
        (remove_plugin
          (create_plugin
            { plugins := [], plugin_id_counter := 0,
              operating_system := OperatingSystem.desktop, running_plugins := [] }
            { name := "chat", exec_path := "/bin/chat" }
            (Except.error (PluginError.io "spawn failed"))).manager
          0).1.running_plugins "chat" = none := by
  have h := claim_C10_create_plugin_not_atomic
    { plugins := [], plugin_id_counter := 0,
      operating_system := OperatingSystem.desktop, running_plugins := [] }
    { name := "chat", exec_path := "/bin/chat" }
    (PluginError.io "spawn failed") (Except.ok ()) rfl rfl
  exact ⟨h.1, h.2.2.2.2.1, h.2.2.2.2.2.2⟩

end AFPlugin
